import Mathlib

/-!
Shallow embedding of the JCURVES Blender add-on (src/__init__.py,
src/jcurves.py, src/bake_panel.py).

Host (Blender) datablocks are modelled as plain structures; host calls that
can fail (library load, object convert, bake) are driven by boolean fields of
the operator context that say whether the host raises at that call.  Every
operator `execute` method becomes a pure function from a context (the host
state it reads) to a result (status, reports issued, and the host state it
leaves behind).  Invocations of `bpy.ops` sub-operators are recorded in an
`opsTrace` list.  Float values used by the code are exactly 0.0 and 1.0, so
colors are modelled with integers.
-/

namespace JCurves

/-- Operator return status (the sets FINISHED / CANCELLED returned by
`execute`). -/
inductive OpStatus
  | FINISHED
  | CANCELLED
  deriving DecidableEq, Repr

/-- Severity level passed to `self.report`. -/
inductive ReportLevel
  | INFO
  | WARNING
  | ERROR
  deriving DecidableEq, Repr

/-- One `self.report` call: a level and a user-facing message. -/
structure Report where
  level : ReportLevel
  msg : String
  deriving DecidableEq, Repr

/-- A material datablock: its name and, when linked from a library, the
library it comes from (`none` means a local material, mirroring
`mat.library is None`). -/
structure Material where
  name : String
  library : Option String
  deriving DecidableEq, Repr

/-- An image datablock with the fields the add-on reads or writes.  The
generated color components are exactly 0.0 or 1.0 in the source, so they are
modelled as integers. -/
structure Image where
  name : String
  width : Nat
  height : Nat
  alpha : Bool
  float_buffer : Bool
  generated_color : Int × Int × Int × Int
  deriving DecidableEq, Repr

/-- A shader node of a material node tree (only the fields the bake operator
touches).  `nodeType` is the node type enum string, e.g. "TEX_IMAGE". -/
structure ShaderNode where
  nodeType : String
  image : Option Image
  label : String
  location : Int × Int
  select : Bool
  deriving DecidableEq, Repr

/-- A material with a node tree, as read by the bake operator
(`mat.use_nodes`, `mat.node_tree.nodes`, `mat.node_tree.nodes.active`). -/
structure ShaderMat where
  name : String
  use_nodes : Bool
  nodes : List ShaderNode
  active : Option ShaderNode
  deriving DecidableEq, Repr

/-- A geometry-nodes modifier on an object (the fields set in
src/jcurves.py). -/
structure Modifier where
  name : String
  modType : String
  node_group : Option String
  show_viewport : Bool
  show_render : Bool
  show_group_selector : Bool
  deriving DecidableEq, Repr

/-- A scene object as read by the jcurves operators: its type enum string,
its modifier stack and its material slots (each slot holds an optional
material). -/
structure Obj where
  objType : String
  modifiers : List Modifier
  material_slots : List (Option Material)
  deriving DecidableEq, Repr

/-- A screen area, as scanned by the bake operator
(`area.type`, `area.spaces.active.image`). -/
structure Area where
  areaType : String
  spaceImage : Option Image
  deriving DecidableEq, Repr

/-- `name in obj.modifiers` in the source checks modifier names. -/
def hasModifier (o : Obj) (n : String) : Bool :=
  o.modifiers.any (fun m => m.name == n)

/-! ## Property groups (src/bake_panel.py lines 5-56, src/jcurves.py lines 9-14) -/

/-- The `JCurvesBakeProps` property group of src/bake_panel.py: one field per
declared property. -/
structure JCurvesBakeProps where
  resolution : String
  max_samples : Int
  denoise : Bool
  bake_margin : Int
  clear_image : Bool
  bake_to_selected_image : Bool
  show_advanced : Bool
  deriving DecidableEq, Repr

/-- Declared defaults of `JCurvesBakeProps`. -/
def defaultJCurvesBakeProps : JCurvesBakeProps :=
  { resolution := "2048"
    max_samples := 1
    denoise := false
    bake_margin := 8
    clear_image := true
    bake_to_selected_image := false
    show_advanced := false }

/-- The `SimpleBakeProps` property group of src/jcurves.py. -/
structure SimpleBakeProps where
  use_existing_colors : Bool
  deriving DecidableEq, Repr

/-- Declared default of `SimpleBakeProps`. -/
def defaultSimpleBakeProps : SimpleBakeProps :=
  { use_existing_colors := false }

/-- The items of the resolution EnumProperty. -/
def resolutionItems : List String :=
  ["1024", "2048", "4096", "8192"]

/-- The host clamps IntProperty assignments to the declared range; the
max_samples property declares min=1, max=10000. -/
def clampMaxSamples (v : Int) : Int :=
  max 1 (min 10000 v)

/-- The bake_margin property declares min=0, max=100. -/
def clampBakeMargin (v : Int) : Int :=
  max 0 (min 100 v)

/-- Field names of `JCurvesBakeProps`, in declaration order. -/
def jcurvesBakePropNames : List String :=
  ["resolution", "max_samples", "denoise", "bake_margin", "clear_image",
   "bake_to_selected_image", "show_advanced"]

/-- Field names of `SimpleBakeProps`. -/
def simpleBakePropNames : List String :=
  ["use_existing_colors"]

/-! ## Registration (src/__init__.py 16-22, src/jcurves.py 189-202,
src/bake_panel.py 254-265) -/

/-- What kind of bpy class a registered class is. -/
inductive ClassKind
  | operatorClass
  | panelClass
  | propertyGroupClass
  deriving DecidableEq, Repr

/-- A class passed to `bpy.utils.register_class`. -/
structure RegClass where
  clsName : String
  kind : ClassKind
  deriving DecidableEq, Repr

def SimpleBakePropsClass : RegClass :=
  ⟨"SimpleBakeProps", ClassKind.propertyGroupClass⟩

def CURVE_OT_ADDJCURVE : RegClass :=
  ⟨"CURVE_OT_ADDJCURVE", ClassKind.operatorClass⟩

def CURVE_OT_CONVERT_TO_MESH : RegClass :=
  ⟨"CURVE_OT_CONVERT_TO_MESH", ClassKind.operatorClass⟩

def JCurvesPanelClass : RegClass :=
  ⟨"JCurves", ClassKind.panelClass⟩

def JCurvesBakePropsClass : RegClass :=
  ⟨"JCurvesBakeProps", ClassKind.propertyGroupClass⟩

def MATERIAL_OT_bake_image : RegClass :=
  ⟨"MATERIAL_OT_bake_image", ClassKind.operatorClass⟩

def JCURVES_PT_bake_panel : RegClass :=
  ⟨"JCURVES_PT_bake_panel", ClassKind.panelClass⟩

/-- Host registration state: registered classes and the pointer properties
attached to `bpy.types.Scene`. -/
structure HostReg where
  classes : List RegClass
  sceneProps : List String
  deriving DecidableEq, Repr

/-- The host state before the add-on registers anything. -/
def hostReg0 : HostReg := ⟨[], []⟩

/-- The `classes` tuple of src/jcurves.py. -/
def jcurvesClasses : List RegClass :=
  [SimpleBakePropsClass, CURVE_OT_ADDJCURVE, CURVE_OT_CONVERT_TO_MESH,
   JCurvesPanelClass]

/-- The `classes` tuple of src/bake_panel.py. -/
def bakePanelClasses : List RegClass :=
  [JCurvesBakePropsClass, MATERIAL_OT_bake_image, JCURVES_PT_bake_panel]

/-- `register()` of src/__init__.py: registers exactly
`CURVE_OT_ADDJCURVE` and the `JCurves` panel, nothing else. -/
def initRegister (h : HostReg) : HostReg :=
  { h with classes := h.classes ++ [CURVE_OT_ADDJCURVE, JCurvesPanelClass] }

/-- `register()` of src/jcurves.py: registers its class tuple and attaches
`simple_bake_props` to the Scene when absent. -/
def jcurvesRegister (h : HostReg) : HostReg :=
  { classes := h.classes ++ jcurvesClasses
    sceneProps :=
      if "simple_bake_props" ∈ h.sceneProps then h.sceneProps
      else h.sceneProps ++ ["simple_bake_props"] }

/-- `register()` of src/bake_panel.py: registers its class tuple and attaches
`jcurves_bake_props` to the Scene when absent. -/
def bakePanelRegister (h : HostReg) : HostReg :=
  { classes := h.classes ++ bakePanelClasses
    sceneProps :=
      if "jcurves_bake_props" ∈ h.sceneProps then h.sceneProps
      else h.sceneProps ++ ["jcurves_bake_props"] }

/-- Number of registered classes of a given kind. -/
def countKind (h : HostReg) (k : ClassKind) : Nat :=
  (h.classes.filter (fun c => c.kind == k)).length

/-! ## Operator 1: Add Curve (src/jcurves.py lines 27-66) -/

/-- Context read by `CURVE_OT_ADDJCURVE.execute`.  `linkRaises` says whether
the host raises inside `bpy.data.libraries.load`; `fileNodeGroups` is
`data_from.node_groups` of the bundled blend file; `selectedAfterAdd` is
`context.selected_objects` as the host leaves it after the two curve
sub-operators have run. -/
structure AddCurveCtx where
  nodeGroups : List String
  fileExists : Bool
  fileNodeGroups : List String
  linkRaises : Bool
  selectedAfterAdd : List Obj
  deriving DecidableEq, Repr

/-- Result of `CURVE_OT_ADDJCURVE.execute`.  `objects` is `none` on the
cancelled paths, where the curve sub-operators never ran. -/
structure AddCurveResult where
  status : OpStatus
  reports : List Report
  nodeGroups : List String
  objects : Option (List Obj)
  opsTrace : List String
  deriving DecidableEq, Repr

/-- The modifier created by `obj.modifiers.new(node_group_name, "NODES")`
with `node_group`, `show_viewport` and `show_render` then assigned; the group
selector flag is left at its host default (true). -/
def jcurvesModifier : Modifier :=
  { name := "J.CURVES"
    modType := "NODES"
    node_group := some "J.CURVES"
    show_viewport := true
    show_render := true
    show_group_selector := true }

/-- Body of the per-object loop of `CURVE_OT_ADDJCURVE.execute`: a selected
object gets the modifier when it is a curve that does not already carry a
modifier named "J.CURVES". -/
def applyJCurvesModifier (o : Obj) : Obj :=
  if o.objType == "CURVE" && !(hasModifier o "J.CURVES") then
    { o with modifiers := o.modifiers ++ [jcurvesModifier] }
  else o

/-- The tail of `CURVE_OT_ADDJCURVE.execute` after the node group is
available: add the NURBS path, set the spline type, apply the modifier to the
selected objects, return FINISHED. -/
def addCurveProceed (ctx : AddCurveCtx) (ngs : List String) : AddCurveResult :=
  { status := OpStatus.FINISHED
    reports := []
    nodeGroups := ngs
    objects := some (ctx.selectedAfterAdd.map applyJCurvesModifier)
    opsTrace := ["curve.primitive_nurbs_path_add", "curve.spline_type_set POLY"] }

/-- A cancelled return of `CURVE_OT_ADDJCURVE.execute`: one error report,
host state untouched, no sub-operator invoked. -/
def addCurveCancel (ctx : AddCurveCtx) (msg : String) : AddCurveResult :=
  { status := OpStatus.CANCELLED
    reports := [⟨ReportLevel.ERROR, msg⟩]
    nodeGroups := ctx.nodeGroups
    objects := none
    opsTrace := [] }

/-- `CURVE_OT_ADDJCURVE.execute` (src/jcurves.py lines 33-66). -/
def addCurveExecute (ctx : AddCurveCtx) : AddCurveResult :=
  if "J.CURVES" ∈ ctx.nodeGroups then
    addCurveProceed ctx ctx.nodeGroups
  else if !ctx.fileExists then
    addCurveCancel ctx "Blend file not found"
  else if ctx.linkRaises then
    addCurveCancel ctx "Failed to link node group"
  else if "J.CURVES" ∈ ctx.fileNodeGroups then
    addCurveProceed ctx (ctx.nodeGroups ++ ["J.CURVES"])
  else
    addCurveCancel ctx "Node group J.CURVES not found in .blend file."

/-! ## Operator 2: Convert to Mesh (src/jcurves.py lines 72-157) -/

/-- `bpy.data.materials.get(name)`: first material with that name. -/
def matGet (db : List Material) (n : String) : Option Material :=
  db.find? (fun m => m.name == n)

/-- `mat.copy()` on a linked material yields a local datablock; the host may
rename the copy on a name collision, which nothing here depends on, so the
name is kept. -/
def copyMaterial (m : Material) : Material :=
  { m with library := none }

/-- State threaded through the material-slot loop of
`CURVE_OT_CONVERT_TO_MESH.execute`. -/
structure SlotsResult where
  slots : List (Option Material)
  db : List Material
  madeLocal : Bool
  reports : List Report
  deriving DecidableEq, Repr

/-- One iteration of the slot loop: an empty slot or a local material is
skipped; a linked material is replaced by an existing local material of the
same name when one exists, and otherwise copied to a new local material,
which sets `made_local`. -/
def processSlot (db : List Material) (s : Option Material) :
    Option Material × List Material × Bool × Option Report :=
  match s with
  | none => (none, db, false, none)
  | some mat =>
    if mat.library = none then (some mat, db, false, none)
    else
      match matGet db mat.name with
      | some ex =>
        if ex.library = none then
          (some ex, db, false,
           some ⟨ReportLevel.INFO, "Reused local material: " ++ mat.name⟩)
        else
          let nm := copyMaterial mat
          (some nm, db ++ [nm], true,
           some ⟨ReportLevel.INFO, "Made material local: " ++ nm.name⟩)
      | none =>
        let nm := copyMaterial mat
        (some nm, db ++ [nm], true,
         some ⟨ReportLevel.INFO, "Made material local: " ++ nm.name⟩)

/-- The whole slot loop, threading the material database left to right and
accumulating `made_local` and the reports. -/
def processSlots : List (Option Material) → List Material → SlotsResult
  | [], db => ⟨[], db, false, []⟩
  | s :: rest, db =>
    let (s1, db1, ml1, r1) := processSlot db s
    let tail := processSlots rest db1
    ⟨s1 :: tail.slots, tail.db, ml1 || tail.madeLocal, r1.toList ++ tail.reports⟩

/-- The modifier created for the color node group: the source additionally
sets `show_group_selector = False`. -/
def jcurvesColorModifier : Modifier :=
  { name := "J.CURVEScolor"
    modType := "NODES"
    node_group := some "J.CURVEScolor"
    show_viewport := true
    show_render := true
    show_group_selector := false }

/-- Context read by `CURVE_OT_CONVERT_TO_MESH.execute`.  `meshAfterConvert`
is `context.active_object` as the host leaves it after `object.convert`;
`colorLoadRaises` says whether the host raises inside the second
`bpy.data.libraries.load`. -/
structure ConvertCtx where
  activeObject : Option Obj
  mode : String
  convertRaises : Bool
  meshAfterConvert : Obj
  materials : List Material
  nodeGroups : List String
  blendExists : Bool
  colorLoadRaises : Bool
  fileNodeGroups : List String
  use_existing_colors : Bool
  deriving DecidableEq, Repr

/-- Result of `CURVE_OT_CONVERT_TO_MESH.execute`. -/
structure ConvertResult where
  status : OpStatus
  reports : List Report
  finalObject : Option Obj
  materials : List Material
  nodeGroups : List String
  opsTrace : List String
  deriving DecidableEq, Repr

/-- A cancelled return of `CURVE_OT_CONVERT_TO_MESH.execute` with the host
state untouched. -/
def convertCancel (ctx : ConvertCtx) (msg : String) (tr : List String) :
    ConvertResult :=
  { status := OpStatus.CANCELLED
    reports := [⟨ReportLevel.ERROR, msg⟩]
    finalObject := ctx.activeObject
    materials := ctx.materials
    nodeGroups := ctx.nodeGroups
    opsTrace := tr }

/-- The color-modifier block of `CURVE_OT_CONVERT_TO_MESH.execute`
(src/jcurves.py lines 126-154), entered once `made_local` is set and the
use-existing-colors flag is off.  Returns the possibly modified mesh, the
node groups after a possible load, and the reports issued. -/
def colorPhase (ctx : ConvertCtx) (mesh : Obj) :
    Obj × List String × List Report :=
  if !(hasModifier mesh "J.CURVEScolor") then
    if !ctx.blendExists then
      (mesh, ctx.nodeGroups, [⟨ReportLevel.WARNING, "Blend file not found"⟩])
    else
      let loadStep : List String × List Report :=
        if "J.CURVEScolor" ∈ ctx.nodeGroups then (ctx.nodeGroups, [])
        else if ctx.colorLoadRaises then
          (ctx.nodeGroups, [⟨ReportLevel.WARNING, "Failed to load node group"⟩])
        else if "J.CURVEScolor" ∈ ctx.fileNodeGroups then
          (ctx.nodeGroups ++ ["J.CURVEScolor"], [])
        else
          (ctx.nodeGroups,
           [⟨ReportLevel.WARNING,
             "Node group J.CURVEScolor not found in .blend file."⟩])
      let ngs := loadStep.1
      if "J.CURVEScolor" ∈ ngs then
        ({ mesh with modifiers := mesh.modifiers ++ [jcurvesColorModifier] },
         ngs,
         loadStep.2 ++
           [⟨ReportLevel.INFO, "Added Geometry Nodes modifier: J.CURVEScolor"⟩])
      else
        (mesh, ngs,
         loadStep.2 ++
           [⟨ReportLevel.WARNING, "Could not assign J.CURVEScolor node group."⟩])
  else (mesh, ctx.nodeGroups, [])

/-- `CURVE_OT_CONVERT_TO_MESH.execute` (src/jcurves.py lines 81-157). -/
def convertExecute (ctx : ConvertCtx) : ConvertResult :=
  match ctx.activeObject with
  | none => convertCancel ctx "No active object selected." []
  | some obj =>
    if obj.objType != "CURVE" then
      convertCancel ctx "Active object is not a curve." []
    else
      let tr0 : List String :=
        if ctx.mode != "OBJECT" then ["object.mode_set OBJECT"] else []
      if ctx.convertRaises then
        convertCancel ctx "Convert failed" (tr0 ++ ["object.convert MESH"])
      else
        let mesh0 := ctx.meshAfterConvert
        let sr := processSlots mesh0.material_slots ctx.materials
        let mesh1 := { mesh0 with material_slots := sr.slots }
        let afterColor :=
          if sr.madeLocal && !ctx.use_existing_colors then colorPhase ctx mesh1
          else (mesh1, ctx.nodeGroups, [])
        { status := OpStatus.FINISHED
          reports := sr.reports ++ afterColor.2.2 ++
            [⟨ReportLevel.INFO, "Converted to mesh and materials made local."⟩]
          finalObject := some afterColor.1
          materials := sr.db
          nodeGroups := afterColor.2.1
          opsTrace := tr0 ++ ["object.convert MESH"] }

/-! ## Operator 3: Bake Image (src/bake_panel.py lines 60-214) -/

/-- The render-settings fields of the scene that the bake operator saves,
mutates and restores.  `hasattr(scene.render.bake, "use_pass_direct")` is
modelled by `pass_direct_indirect` being `some`: the source gates saving and
setting both pass flags on that single hasattr check, so the two flags live
in one optional pair. -/
structure RenderSettings where
  engine : String
  device : String
  samples : Int
  use_denoising : Bool
  margin : Int
  use_clear : Bool
  bake_type : String
  use_pass_diffuse : Bool
  pass_direct_indirect : Option (Bool × Bool)
  deriving DecidableEq, Repr

/-- The local variables `old_samples` .. `old_use_indirect` of `execute`
(src/bake_panel.py lines 147-159). -/
structure SavedBakeSettings where
  samples : Int
  denoise : Bool
  margin : Int
  clear : Bool
  btype : String
  use_diffuse : Bool
  direct_indirect : Option (Bool × Bool)
  deriving DecidableEq, Repr

/-- Reading the old values (src/bake_panel.py lines 147-159): the pass pair
is `none` exactly when the attribute is absent, matching
`old_use_direct = old_use_indirect = None`. -/
def saveBakeSettings (s : RenderSettings) : SavedBakeSettings :=
  { samples := s.samples
    denoise := s.use_denoising
    margin := s.margin
    clear := s.use_clear
    btype := s.bake_type
    use_diffuse := s.use_pass_diffuse
    direct_indirect := s.pass_direct_indirect }

/-- Applying the bake settings (src/bake_panel.py lines 161-169). -/
def applyBakeSettings (s : RenderSettings) (p : JCurvesBakeProps) :
    RenderSettings :=
  { s with
    samples := p.max_samples
    use_denoising := p.denoise
    margin := p.bake_margin
    use_clear := p.clear_image
    bake_type := "DIFFUSE"
    use_pass_diffuse := true
    pass_direct_indirect := s.pass_direct_indirect.map (fun _ => (false, false)) }

/-- `_restore_bake_settings` (src/bake_panel.py lines 202-214): the pass pair
is written back only when the saved value is not None. -/
def restoreBakeSettings (s : RenderSettings) (o : SavedBakeSettings) :
    RenderSettings :=
  { s with
    samples := o.samples
    use_denoising := o.denoise
    margin := o.margin
    use_clear := o.clear
    bake_type := o.btype
    use_pass_diffuse := o.use_diffuse
    pass_direct_indirect :=
      match o.direct_indirect with
      | some di => some di
      | none => s.pass_direct_indirect }

/-- The Image Editor scan (src/bake_panel.py lines 98-102): the loop breaks
at the first IMAGE_EDITOR area whose active space has an image; editors
without an image are passed over. -/
def firstEditorImage : List Area → Option Image
  | [] => none
  | a :: rest =>
    if a.areaType == "IMAGE_EDITOR" && a.spaceImage.isSome then a.spaceImage
    else firstEditorImage rest

/-- The active-node fallback (src/bake_panel.py lines 105-108). -/
def activeNodeImage (mat : ShaderMat) : Option Image :=
  match mat.active with
  | some n =>
    if n.nodeType == "TEX_IMAGE" && n.image.isSome then n.image else none
  | none => none

/-- Image lookup when baking to a selected image: Image Editor first, then
the active texture node. -/
def selectedBakeImage (areas : List Area) (mat : ShaderMat) : Option Image :=
  match firstEditorImage areas with
  | some img => some img
  | none => activeNodeImage mat

/-- The image created by `bpy.data.images.new` plus the `generated_color`
assignment (src/bake_panel.py lines 120-128). -/
def newBakedImage (matName : String) (resolution : Nat) : Image :=
  { name := matName ++ "_Baked_" ++ toString resolution ++ "x" ++
      toString resolution
    width := resolution
    height := resolution
    alpha := true
    float_buffer := false
    generated_color := (0, 0, 0, 1) }

/-- The loop `for node in nodes: node.select = False`. -/
def deselectAll (ns : List ShaderNode) : List ShaderNode :=
  ns.map (fun n => { n with select := false })

/-- The node created by `nodes.new(type="ShaderNodeTexImage")` (its type enum
reads "TEX_IMAGE") after the assignments of lines 136-144. -/
def mkBakeNode (img : Image) : ShaderNode :=
  { nodeType := "TEX_IMAGE"
    image := some img
    label := "Baked Image"
    location := (0, 0)
    select := true }

/-- The object the bake operator reads: only `active_material` is used. -/
structure BakeObj where
  active_material : Option ShaderMat
  deriving DecidableEq, Repr

/-- Context read by `MATERIAL_OT_bake_image.execute`.  `bakeRaises` says
whether the host raises inside `bpy.ops.object.bake`. -/
structure BakeCtx where
  props : JCurvesBakeProps
  activeObject : Option BakeObj
  areas : List Area
  scene : RenderSettings
  images : List Image
  bakeRaises : Bool
  deriving DecidableEq, Repr

/-- Result of `MATERIAL_OT_bake_image.execute`.  `sceneAtBake` records the
render settings in force at the `bpy.ops.object.bake` call, and is `none` on
paths that never reach the bake; `bakedImage` is the image baked to on the
FINISHED path. -/
structure BakeResult where
  status : OpStatus
  reports : List Report
  scene : RenderSettings
  images : List Image
  material : Option ShaderMat
  sceneAtBake : Option RenderSettings
  bakedImage : Option Image
  deriving DecidableEq, Repr

/-- A cancelled return before the bake node is created: the scene is whatever
it is at that point (the early guard paths leave it untouched; the
no-image path has already switched engine and device). -/
def bakeEarlyCancel (ctx : BakeCtx) (sc : RenderSettings) (rs : List Report) :
    BakeResult :=
  { status := OpStatus.CANCELLED
    reports := rs
    scene := sc
    images := ctx.images
    material := ctx.activeObject.bind (fun o => o.active_material)
    sceneAtBake := none
    bakedImage := none }

/-- The tail of `execute` from the bake-node creation onward
(src/bake_panel.py lines 131-200).  `created` says whether the image was
newly created by this run (the else branch of the image choice); `images1`
is `bpy.data.images` after a possible creation. -/
def bakeMain (ctx : BakeCtx) (mat : ShaderMat) (scene1 : RenderSettings)
    (original_engine original_device : String) (image : Image)
    (created : Bool) (images1 : List Image) (preReports : List Report) :
    BakeResult :=
  let bakeNode := mkBakeNode image
  let mat1 : ShaderMat :=
    { mat with nodes := deselectAll mat.nodes ++ [bakeNode]
               active := some bakeNode }
  let saved := saveBakeSettings scene1
  let scene2 := applyBakeSettings scene1 ctx.props
  if ctx.bakeRaises then
    let matFail : ShaderMat :=
      { mat with nodes := deselectAll mat.nodes, active := none }
    let imagesFail := if created then ctx.images else images1
    let sceneFail :=
      { restoreBakeSettings scene2 saved with
        engine := original_engine, device := original_device }
    { status := OpStatus.CANCELLED
      reports := preReports ++ [⟨ReportLevel.ERROR, "Baking failed"⟩]
      scene := sceneFail
      images := imagesFail
      material := some matFail
      sceneAtBake := some scene2
      bakedImage := none }
  else
    let scene3 :=
      { restoreBakeSettings scene2 saved with
        engine := original_engine, device := original_device }
    let action :=
      if ctx.props.bake_to_selected_image then "Baked to existing image: "
      else "Created and baked to new image: "
    { status := OpStatus.FINISHED
      reports := preReports ++
        [⟨ReportLevel.INFO, "Baking completed (Diffuse color only)."⟩,
         ⟨ReportLevel.INFO, action ++ image.name⟩]
      scene := scene3
      images := images1
      material := some mat1
      sceneAtBake := some scene2
      bakedImage := some image }

/-- `MATERIAL_OT_bake_image.execute` (src/bake_panel.py lines 66-200). -/
def bakeExecute (ctx : BakeCtx) : BakeResult :=
  let props := ctx.props
  let resolution := props.resolution.toNat?.getD 0
  match ctx.activeObject with
  | none =>
    bakeEarlyCancel ctx ctx.scene
      [⟨ReportLevel.ERROR, "No active object selected."⟩]
  | some obj =>
    match obj.active_material with
    | none =>
      bakeEarlyCancel ctx ctx.scene
        [⟨ReportLevel.ERROR, "Active material has no node tree."⟩]
    | some mat =>
      if !mat.use_nodes then
        bakeEarlyCancel ctx ctx.scene
          [⟨ReportLevel.ERROR, "Active material has no node tree."⟩]
      else
        let original_engine := ctx.scene.engine
        let original_device := ctx.scene.device
        let scene1 : RenderSettings :=
          { ctx.scene with
            engine :=
              if ctx.scene.engine != "CYCLES" then "CYCLES"
              else ctx.scene.engine
            device := "GPU" }
        if props.bake_to_selected_image then
          match selectedBakeImage ctx.areas mat with
          | none =>
            bakeEarlyCancel ctx scene1
              [⟨ReportLevel.ERROR,
                "No image selected in Image Editor or active node."⟩]
          | some image =>
            let warn : List Report :=
              if image.width != resolution || image.height != resolution then
                [⟨ReportLevel.WARNING,
                  "Selected image size differs from bake resolution. Using selected image anyway."⟩]
              else []
            bakeMain ctx mat scene1 original_engine original_device image
              false ctx.images warn
        else
          let image := newBakedImage mat.name resolution
          bakeMain ctx mat scene1 original_engine original_device image
            true (ctx.images ++ [image])
            [⟨ReportLevel.INFO, "Created image: " ++ image.name⟩]

/-! ## Concrete contexts used by counterexamples and witnesses -/

/-- A material with nodes enabled, an empty tree and no active node. -/
def plainMat : ShaderMat :=
  { name := "HairMat", use_nodes := true, nodes := [], active := none }

/-- A scene configured for EEVEE on CPU, with every bake-related field away
from the values the operator forces. -/
def eeveeScene : RenderSettings :=
  { engine := "BLENDER_EEVEE"
    device := "CPU"
    samples := 64
    use_denoising := true
    margin := 16
    use_clear := false
    bake_type := "COMBINED"
    use_pass_diffuse := false
    pass_direct_indirect := some (true, true) }

/-- Bake context where bake-to-selected-image is on but neither an Image
Editor image nor an active texture node exists. -/
def noImageBakeCtx : BakeCtx :=
  { props := { defaultJCurvesBakeProps with bake_to_selected_image := true }
    activeObject := some ⟨some plainMat⟩
    areas := [⟨"VIEW_3D", none⟩, ⟨"IMAGE_EDITOR", none⟩]
    scene := eeveeScene
    images := []
    bakeRaises := false }

/-- Bake context for a successful bake to a newly created image. -/
def freshBakeCtx : BakeCtx :=
  { props := defaultJCurvesBakeProps
    activeObject := some ⟨some plainMat⟩
    areas := []
    scene := eeveeScene
    images := []
    bakeRaises := false }

/-- Same context with the host raising inside the bake call. -/
def failingBakeCtx : BakeCtx :=
  { freshBakeCtx with bakeRaises := true }

/-- A material linked from a library, present in the material database. -/
def linkedMat : Material := ⟨"HairMat", some "J_Curves Geometry Nodes.blend"⟩

/-- Convert context that reaches the color node-group load with the host
raising inside that load: the active object is a curve, the convert
succeeds, and the single slot holds a linked material with no local
counterpart, so the loop copies it and sets made_local. -/
def colorLoadFailCtx : ConvertCtx :=
  { activeObject := some ⟨"CURVE", [], []⟩
    mode := "OBJECT"
    convertRaises := false
    meshAfterConvert := ⟨"MESH", [], [some linkedMat]⟩
    materials := [linkedMat]
    nodeGroups := []
    blendExists := true
    colorLoadRaises := true
    fileNodeGroups := ["J.CURVEScolor"]
    use_existing_colors := false }

/-- Convert context where the host convert call raises. -/
def convertFailCtx : ConvertCtx :=
  { activeObject := some ⟨"CURVE", [], []⟩
    mode := "OBJECT"
    convertRaises := true
    meshAfterConvert := ⟨"MESH", [], []⟩
    materials := []
    nodeGroups := []
    blendExists := true
    colorLoadRaises := false
    fileNodeGroups := []
    use_existing_colors := false }

/-- Convert context whose conversion succeeds with no material slots. -/
def plainConvertCtx : ConvertCtx :=
  { convertFailCtx with convertRaises := false }

/-- Add-curve context where the node group must be linked and the host
raises inside the library load. -/
def linkFailCtx : AddCurveCtx :=
  { nodeGroups := []
    fileExists := true
    fileNodeGroups := ["J.CURVES"]
    linkRaises := true
    selectedAfterAdd := [] }

/-- Add-curve context where the link succeeds and two objects are selected:
a fresh curve and a mesh. -/
def addCurveOkCtx : AddCurveCtx :=
  { nodeGroups := []
    fileExists := true
    fileNodeGroups := ["J.CURVES"]
    linkRaises := false
    selectedAfterAdd := [⟨"CURVE", [], []⟩, ⟨"MESH", [], []⟩] }

/-- The render settings in force at the bake call of `freshBakeCtx`:
engine and device forced, the default bake props applied, pass pair set to
(false, false). -/
def gpuSceneAtBake : RenderSettings :=
  { engine := "CYCLES"
    device := "GPU"
    samples := 1
    use_denoising := false
    margin := 8
    use_clear := true
    bake_type := "DIFFUSE"
    use_pass_diffuse := true
    pass_direct_indirect := some (false, false) }

/-- Convert context with no active object. -/
def noActiveCtx : ConvertCtx :=
  { convertFailCtx with activeObject := none }

/-- Convert context whose active object is a mesh, not a curve. -/
def meshActiveCtx : ConvertCtx :=
  { convertFailCtx with activeObject := some ⟨"MESH", [], []⟩ }

end JCurves

namespace JCurves

/-! ## Helper lemmas -/

/-- Restoring the saved settings after applying the bake settings gives back
the original render settings. -/
theorem restore_apply_save (s : RenderSettings) (p : JCurvesBakeProps) :
    restoreBakeSettings (applyBakeSettings s p) (saveBakeSettings s) = s := by
  cases s with
  | mk engine device samples den margin clear btype diff pdi =>
    cases pdi <;> rfl

/-- Overwriting engine and device of a partially mutated scene with the
original values yields the original scene. -/
theorem engine_device_roundtrip (s : RenderSettings) (e d : String) :
    ({ { s with engine := e, device := d } with
       engine := s.engine, device := s.device } : RenderSettings) = s := by
  rfl

/-- The conditional engine switch together with the unconditional device
switch amounts to forcing engine CYCLES and device GPU. -/
theorem scene_mutated_eq (s : RenderSettings) :
    ({ s with
       engine := if s.engine != "CYCLES" then "CYCLES" else s.engine,
       device := "GPU" } : RenderSettings) =
      { s with engine := "CYCLES", device := "GPU" } := by
  by_cases h : s.engine = "CYCLES"
  · simp [h]
  · simp [bne_iff_ne, h]

/-- Replacing the material slots of an object does not change which
modifiers it carries. -/
theorem hasModifier_set_slots (o : Obj) (sl : List (Option Material))
    (n : String) :
    hasModifier { o with material_slots := sl } n = hasModifier o n := by
  rfl

/-- If every linked material in the slots resolves by name to an existing
local material, the slot loop only reuses and never copies, so it does not
set made_local. -/
theorem processSlots_reuse (slots : List (Option Material)) :
    ∀ db : List Material,
      (∀ mat : Material, some mat ∈ slots → mat.library ≠ none →
        ∃ ex, matGet db mat.name = some ex ∧ ex.library = none) →
      (processSlots slots db).madeLocal = false := by
  induction slots with
  | nil => intro db _; rfl
  | cons s rest ih =>
    intro db h
    cases s with
    | none =>
      simp only [processSlots, processSlot]
      exact ih db (fun mat hm hl => h mat (List.mem_cons_of_mem _ hm) hl)
    | some mat =>
      by_cases hl : mat.library = none
      · simp only [processSlots, processSlot, hl, if_pos rfl, if_true]
        exact ih db (fun m hm hml => h m (List.mem_cons_of_mem _ hm) hml)
      · obtain ⟨ex, hex, hexl⟩ := h mat (List.mem_cons_self _ _) hl
        simp only [processSlots, processSlot, hl, if_false, hex, hexl,
          ite_true, ite_false, if_pos rfl]
        exact ih db (fun m hm hml => h m (List.mem_cons_of_mem _ hm) hml)

/-- The Image Editor scan returns the image of the first area that is an
IMAGE_EDITOR and shows an image. -/
theorem firstEditorImage_head_filter (areas : List Area) :
    firstEditorImage areas =
      ((areas.filter fun a =>
          a.areaType == "IMAGE_EDITOR" && a.spaceImage.isSome).head?).bind
        (fun a => a.spaceImage) := by
  induction areas with
  | nil => rfl
  | cons a rest ih =>
    by_cases h : (a.areaType == "IMAGE_EDITOR" && a.spaceImage.isSome) = true
    · simp [firstEditorImage, h, List.filter_cons]
    · simp [firstEditorImage, h, List.filter_cons, ih]

/-- The color-modifier block either leaves the modifier stack alone or, only
when the color modifier is absent, appends exactly it. -/
theorem colorPhase_modifiers (ctx : ConvertCtx) (mesh : Obj) :
    (colorPhase ctx mesh).1.modifiers = mesh.modifiers ∨
    (hasModifier mesh "J.CURVEScolor" = false ∧
      (colorPhase ctx mesh).1.modifiers =
        mesh.modifiers ++ [jcurvesColorModifier]) := by
  by_cases hmod : hasModifier mesh "J.CURVEScolor"
  · simp [colorPhase, hmod]
  · by_cases hblend : ctx.blendExists
    · by_cases hng : "J.CURVEScolor" ∈ ctx.nodeGroups
      · right
        simp [colorPhase, hmod, hblend, hng]
      · by_cases hraise : ctx.colorLoadRaises
        · left
          simp [colorPhase, hmod, hblend, hng, hraise]
        · by_cases hfg : "J.CURVEScolor" ∈ ctx.fileNodeGroups
          · right
            simp [colorPhase, hmod, hblend, hng, hraise, hfg]
          · left
            simp [colorPhase, hmod, hblend, hng, hraise, hfg]
    · left
      simp [colorPhase, hmod, hblend]

/-- When the color modifier is already present the color block does
nothing. -/
theorem colorPhase_present (ctx : ConvertCtx) (mesh : Obj)
    (hmod : hasModifier mesh "J.CURVEScolor" = true) :
    colorPhase ctx mesh = (mesh, ctx.nodeGroups, []) := by
  simp [colorPhase, hmod]

/-- On the successful convert path the final object is the converted mesh
with its slots rewritten by the loop and then possibly touched by the color
block. -/
theorem convertExecute_finalObject (ctx : ConvertCtx) (obj : Obj)
    (h1 : ctx.activeObject = some obj) (h2 : obj.objType = "CURVE")
    (h3 : ctx.convertRaises = false) :
    (convertExecute ctx).finalObject = some
      ((if (processSlots ctx.meshAfterConvert.material_slots
            ctx.materials).madeLocal && !ctx.use_existing_colors then
          colorPhase ctx
            { ctx.meshAfterConvert with
              material_slots := (processSlots
                ctx.meshAfterConvert.material_slots ctx.materials).slots }
        else
          ({ ctx.meshAfterConvert with
             material_slots := (processSlots
               ctx.meshAfterConvert.material_slots ctx.materials).slots },
           ctx.nodeGroups, [])).1) := by
  simp [convertExecute, h1, h2, h3]

end JCurves

namespace JCurves

/-! ## Claim C3: classes registered by the add-on -/

/-- C3 (code_bug evidence): the package-level `register()` of
src/__init__.py registers one operator and one panel and no property group,
while running the never-invoked module-level `register()` functions of
src/jcurves.py and src/bake_panel.py would register three operators and two
panels.  The spec counts three operators and two panels after registration,
so the package entry point contradicts the intent of the rest of the
add-on. -/
theorem addon_registration_counts :
    countKind (initRegister hostReg0) ClassKind.operatorClass = 1 ∧
    countKind (initRegister hostReg0) ClassKind.panelClass = 1 ∧
    countKind (initRegister hostReg0) ClassKind.propertyGroupClass = 0 ∧
    (initRegister hostReg0).sceneProps = [] ∧
    countKind (bakePanelRegister (jcurvesRegister hostReg0))
      ClassKind.operatorClass = 3 ∧
    countKind (bakePanelRegister (jcurvesRegister hostReg0))
      ClassKind.panelClass = 2 := by
  decide

/-! ## Claim C7: persisted UI-configuration state -/

/-- C7: the persisted state is the eight listed fields; the defaults are
"2048", 1, false, 8, true, false, false and false; the two int properties
clamp to 1..10000 and 0..100; and the two module register functions attach
the property groups to the Scene. -/
theorem persisted_props_spec :
    defaultJCurvesBakeProps.resolution = "2048" ∧
    resolutionItems = ["1024", "2048", "4096", "8192"] ∧
    defaultJCurvesBakeProps.resolution ∈ resolutionItems ∧
    defaultJCurvesBakeProps.max_samples = 1 ∧
    (∀ v : Int, 1 ≤ clampMaxSamples v ∧ clampMaxSamples v ≤ 10000) ∧
    clampMaxSamples 1 = 1 ∧ clampMaxSamples 10000 = 10000 ∧
    defaultJCurvesBakeProps.denoise = false ∧
    defaultJCurvesBakeProps.bake_margin = 8 ∧
    (∀ v : Int, 0 ≤ clampBakeMargin v ∧ clampBakeMargin v ≤ 100) ∧
    clampBakeMargin 0 = 0 ∧ clampBakeMargin 100 = 100 ∧
    defaultJCurvesBakeProps.clear_image = true ∧
    defaultJCurvesBakeProps.bake_to_selected_image = false ∧
    defaultJCurvesBakeProps.show_advanced = false ∧
    defaultSimpleBakeProps.use_existing_colors = false ∧
    (jcurvesBakePropNames ++ simpleBakePropNames).length = 8 ∧
    (jcurvesRegister hostReg0).sceneProps = ["simple_bake_props"] ∧
    (bakePanelRegister hostReg0).sceneProps = ["jcurves_bake_props"] := by
  refine ⟨rfl, rfl, by decide, rfl, ?_, by decide, by decide, rfl, rfl, ?_,
    by decide, by decide, rfl, rfl, rfl, rfl, by decide, by decide, by decide⟩
  · intro v
    exact ⟨le_max_left _ _, max_le (by norm_num) (min_le_left _ _)⟩
  · intro v
    exact ⟨le_max_left _ _, max_le (by norm_num) (min_le_left _ _)⟩

/-! ## Claim C1: restoration of mutated render settings -/

/-- C1 counterexample: with bake-to-selected-image on and no image found,
the operator returns CANCELLED after having switched the render engine to
CYCLES and the Cycles device to GPU, and restores neither: the initial
scene ran EEVEE on CPU. -/
theorem bake_restore_counterexample :
    (bakeExecute noImageBakeCtx).status = OpStatus.CANCELLED ∧
    noImageBakeCtx.scene.engine = "BLENDER_EEVEE" ∧
    noImageBakeCtx.scene.device = "CPU" ∧
    (bakeExecute noImageBakeCtx).scene.engine = "CYCLES" ∧
    (bakeExecute noImageBakeCtx).scene.device = "GPU" := by
  decide

/-- C1 amended: every run that reaches the bake call (both the FINISHED path
and the bake-failure CANCELLED path) leaves every saved render-settings
field restored, i.e. the final scene equals the initial scene; a run that
returns without reaching the bake call is CANCELLED and leaves the scene
either untouched (the guard paths) or, on the no-image path, with engine
forced to CYCLES and device forced to GPU and nothing restored. -/
theorem bake_settings_restored_amended (ctx : BakeCtx) :
    ((bakeExecute ctx).sceneAtBake.isSome →
      (bakeExecute ctx).scene = ctx.scene ∧
      (bakeExecute ctx).scene.engine = ctx.scene.engine ∧
      (bakeExecute ctx).scene.device = ctx.scene.device) ∧
    ((bakeExecute ctx).sceneAtBake = none →
      (bakeExecute ctx).status = OpStatus.CANCELLED ∧
      ((bakeExecute ctx).scene = ctx.scene ∨
        (bakeExecute ctx).scene =
          { ctx.scene with engine := "CYCLES", device := "GPU" })) := by
  obtain ⟨props, ao, areas, scene, images, br⟩ := ctx
  cases ao with
  | none => simp [bakeExecute, bakeEarlyCancel]
  | some obj =>
    obtain ⟨am⟩ := obj
    cases am with
    | none => simp [bakeExecute, bakeEarlyCancel]
    | some mat =>
      by_cases hu : mat.use_nodes
      · by_cases hsel : props.bake_to_selected_image
        · simp only [bakeExecute, hu, hsel, Bool.not_true, if_true, if_false,
            Bool.false_eq_true, ite_false, ite_true]
          cases himg : selectedBakeImage areas mat with
          | none =>
            simp [bakeEarlyCancel, scene_mutated_eq]
          | some image =>
            cases br <;>
              simp [bakeMain, restore_apply_save, engine_device_roundtrip]
        · simp only [bakeExecute, hu, hsel, Bool.not_true, if_true, if_false,
            Bool.false_eq_true, ite_false, ite_true]
          cases br <;>
            simp [bakeMain, restore_apply_save, engine_device_roundtrip]
      · simp [bakeExecute, hu, bakeEarlyCancel]

/-- Witness for the C1 amended theorem: a concrete successful bake starting
from an EEVEE/CPU scene ends with the scene exactly restored. -/
theorem bake_settings_restored_amended_witness :
    (bakeExecute freshBakeCtx).scene = freshBakeCtx.scene ∧
    (bakeExecute freshBakeCtx).scene.engine = freshBakeCtx.scene.engine ∧
    (bakeExecute freshBakeCtx).scene.device = freshBakeCtx.scene.device :=
  (bake_settings_restored_amended freshBakeCtx).1 (by decide)

/-! ## Claim C2: where host errors are caught and with what outcome -/

/-- C2 counterexample: the convert-to-mesh operator catches a host error
raised inside its color node-group library load and then returns FINISHED
with a warning, not a cancel result — so the catches are not limited to two
calls each ending in a cancel. -/
theorem convert_color_load_catch_counterexample :
    (convertExecute colorLoadFailCtx).status = OpStatus.FINISHED ∧
    Report.mk ReportLevel.WARNING "Failed to load node group" ∈
      (convertExecute colorLoadFailCtx).reports := by
  decide

/-- C2 amended: host errors are caught at four call sites.  The library
link in add-curve, the object convert in convert-to-mesh, and the bake in
bake-image each emit an error string and return CANCELLED; the color
node-group load in convert-to-mesh emits a warning string and the operator
still returns FINISHED. -/
theorem host_error_catches_amended :
    (∀ ctx : AddCurveCtx, "J.CURVES" ∉ ctx.nodeGroups →
      ctx.fileExists = true → ctx.linkRaises = true →
        (addCurveExecute ctx).status = OpStatus.CANCELLED ∧
        (addCurveExecute ctx).reports =
          [⟨ReportLevel.ERROR, "Failed to link node group"⟩]) ∧
    (∀ ctx : ConvertCtx, ∀ obj : Obj, ctx.activeObject = some obj →
      obj.objType = "CURVE" → ctx.convertRaises = true →
        (convertExecute ctx).status = OpStatus.CANCELLED ∧
        (convertExecute ctx).reports =
          [⟨ReportLevel.ERROR, "Convert failed"⟩]) ∧
    (∀ ctx : ConvertCtx, ∀ obj : Obj, ctx.activeObject = some obj →
      obj.objType = "CURVE" → ctx.convertRaises = false →
      (processSlots ctx.meshAfterConvert.material_slots ctx.materials).madeLocal
        = true →
      ctx.use_existing_colors = false →
      hasModifier ctx.meshAfterConvert "J.CURVEScolor" = false →
      ctx.blendExists = true →
      "J.CURVEScolor" ∉ ctx.nodeGroups →
      ctx.colorLoadRaises = true →
        (convertExecute ctx).status = OpStatus.FINISHED ∧
        Report.mk ReportLevel.WARNING "Failed to load node group" ∈
          (convertExecute ctx).reports) ∧
    (∀ ctx : BakeCtx, ∀ obj : BakeObj, ∀ mat : ShaderMat,
      ctx.activeObject = some obj → obj.active_material = some mat →
      mat.use_nodes = true → ctx.props.bake_to_selected_image = false →
      ctx.bakeRaises = true →
        (bakeExecute ctx).status = OpStatus.CANCELLED ∧
        Report.mk ReportLevel.ERROR "Baking failed" ∈
          (bakeExecute ctx).reports) := by
  refine ⟨?_, ?_, ?_, ?_⟩
  · intro ctx h1 h2 h3
    simp [addCurveExecute, h1, h2, h3, addCurveCancel]
  · intro ctx obj h1 h2 h3
    simp [convertExecute, h1, h2, h3, convertCancel]
  · intro ctx obj h1 h2 h3 hml hflag hmod hblend hng hraise
    simp [convertExecute, h1, h2, h3, hml, hflag, hmod, hblend, hng, hraise,
      colorPhase, hasModifier_set_slots]
  · intro ctx obj mat h1 h2 h3 h4 h5
    simp [bakeExecute, h1, h2, h3, h4, h5, bakeMain]

/-- Witness for the C2 amended theorem at concrete contexts for all four
catch sites. -/
theorem host_error_catches_amended_witness :
    ((addCurveExecute linkFailCtx).status = OpStatus.CANCELLED ∧
      (addCurveExecute linkFailCtx).reports =
        [⟨ReportLevel.ERROR, "Failed to link node group"⟩]) ∧
    ((convertExecute convertFailCtx).status = OpStatus.CANCELLED ∧
      (convertExecute convertFailCtx).reports =
        [⟨ReportLevel.ERROR, "Convert failed"⟩]) ∧
    ((convertExecute colorLoadFailCtx).status = OpStatus.FINISHED ∧
      Report.mk ReportLevel.WARNING "Failed to load node group" ∈
        (convertExecute colorLoadFailCtx).reports) ∧
    ((bakeExecute failingBakeCtx).status = OpStatus.CANCELLED ∧
      Report.mk ReportLevel.ERROR "Baking failed" ∈
        (bakeExecute failingBakeCtx).reports) :=
  ⟨host_error_catches_amended.1 linkFailCtx (by decide) rfl rfl,
   host_error_catches_amended.2.1 convertFailCtx ⟨"CURVE", [], []⟩ rfl rfl rfl,
   host_error_catches_amended.2.2.1 colorLoadFailCtx ⟨"CURVE", [], []⟩ rfl rfl
     rfl (by decide) rfl rfl rfl (by decide) rfl,
   host_error_catches_amended.2.2.2 failingBakeCtx ⟨some plainMat⟩ plainMat
     rfl rfl rfl rfl rfl⟩

/-! ## Claim C8: convert-to-mesh guards and outcome reports -/

/-- C8 counterexample: with an active curve object the operator proceeds,
but when the host convert raises it ends with an error string and a cancel
result, not a success string. -/
theorem convert_failure_counterexample :
    convertFailCtx.activeObject = some ⟨"CURVE", [], []⟩ ∧
    (convertExecute convertFailCtx).status = OpStatus.CANCELLED ∧
    (convertExecute convertFailCtx).reports =
      [⟨ReportLevel.ERROR, "Convert failed"⟩] := by
  decide

/-- C8 amended: with no active object or a non-curve active object the
operator reports an error and cancels without invoking the host convert or
touching any state; otherwise it invokes the convert, and either the
convert raises — error string and cancel — or the run ends by reporting the
success string. -/
theorem convert_guard_amended :
    (∀ ctx : ConvertCtx, ctx.activeObject = none →
      (convertExecute ctx).status = OpStatus.CANCELLED ∧
      (convertExecute ctx).reports =
        [⟨ReportLevel.ERROR, "No active object selected."⟩] ∧
      (convertExecute ctx).opsTrace = [] ∧
      (convertExecute ctx).finalObject = ctx.activeObject ∧
      (convertExecute ctx).materials = ctx.materials ∧
      (convertExecute ctx).nodeGroups = ctx.nodeGroups) ∧
    (∀ ctx : ConvertCtx, ∀ obj : Obj, ctx.activeObject = some obj →
      obj.objType ≠ "CURVE" →
      (convertExecute ctx).status = OpStatus.CANCELLED ∧
      (convertExecute ctx).reports =
        [⟨ReportLevel.ERROR, "Active object is not a curve."⟩] ∧
      (convertExecute ctx).opsTrace = [] ∧
      (convertExecute ctx).finalObject = ctx.activeObject ∧
      (convertExecute ctx).materials = ctx.materials ∧
      (convertExecute ctx).nodeGroups = ctx.nodeGroups) ∧
    (∀ ctx : ConvertCtx, ∀ obj : Obj, ctx.activeObject = some obj →
      obj.objType = "CURVE" → ctx.convertRaises = true →
      (convertExecute ctx).status = OpStatus.CANCELLED ∧
      (convertExecute ctx).reports =
        [⟨ReportLevel.ERROR, "Convert failed"⟩] ∧
      "object.convert MESH" ∈ (convertExecute ctx).opsTrace) ∧
    (∀ ctx : ConvertCtx, ∀ obj : Obj, ctx.activeObject = some obj →
      obj.objType = "CURVE" → ctx.convertRaises = false →
      (convertExecute ctx).status = OpStatus.FINISHED ∧
      ∃ pre, (convertExecute ctx).reports =
        pre ++ [⟨ReportLevel.INFO,
          "Converted to mesh and materials made local."⟩]) := by
  refine ⟨?_, ?_, ?_, ?_⟩
  · intro ctx h1
    simp [convertExecute, h1, convertCancel]
  · intro ctx obj h1 h2
    simp [convertExecute, h1, h2, convertCancel, bne_iff_ne]
  · intro ctx obj h1 h2 h3
    simp [convertExecute, h1, h2, h3, convertCancel]
  · intro ctx obj h1 h2 h3
    refine ⟨by simp [convertExecute, h1, h2, h3], ?_⟩
    refine ⟨(processSlots ctx.meshAfterConvert.material_slots
        ctx.materials).reports ++
      (if (processSlots ctx.meshAfterConvert.material_slots
            ctx.materials).madeLocal && !ctx.use_existing_colors then
        colorPhase ctx
          { ctx.meshAfterConvert with
            material_slots := (processSlots ctx.meshAfterConvert.material_slots
              ctx.materials).slots }
       else
        ({ ctx.meshAfterConvert with
           material_slots := (processSlots ctx.meshAfterConvert.material_slots
             ctx.materials).slots }, ctx.nodeGroups, [])).2.2, ?_⟩
    simp [convertExecute, h1, h2, h3]

/-! ## Claim C4: cleanup when the bake call raises -/

/-- C4: when the bake raises on a run that reached the bake call, the
operator returns CANCELLED with an error report, every saved render setting
(engine, device, samples, denoising, margin, use_clear, bake type, pass
flags) is back to its initial value, the created image-texture node is gone
from the material (only the select flags of the pre-existing nodes were
touched), and the image list is back to its initial value: a newly created
image was removed, a pre-selected image was never added so it is kept. -/
theorem bake_failure_cleanup (ctx : BakeCtx) (obj : BakeObj) (mat : ShaderMat)
    (h1 : ctx.activeObject = some obj) (h2 : obj.active_material = some mat)
    (h3 : mat.use_nodes = true) (h4 : ctx.bakeRaises = true)
    (h5 : (bakeExecute ctx).sceneAtBake.isSome) :
    (bakeExecute ctx).status = OpStatus.CANCELLED ∧
    (bakeExecute ctx).scene = ctx.scene ∧
    (bakeExecute ctx).images = ctx.images ∧
    (bakeExecute ctx).material =
      some { mat with nodes := deselectAll mat.nodes, active := none } ∧
    (bakeExecute ctx).bakedImage = none ∧
    Report.mk ReportLevel.ERROR "Baking failed" ∈ (bakeExecute ctx).reports := by
  by_cases hsel : ctx.props.bake_to_selected_image
  · cases himg : selectedBakeImage ctx.areas mat with
    | none =>
      exfalso
      simp [bakeExecute, h1, h2, h3, hsel, himg, bakeEarlyCancel] at h5
    | some image =>
      simp [bakeExecute, h1, h2, h3, h4, hsel, himg, bakeMain,
        restore_apply_save, engine_device_roundtrip]
  · simp [bakeExecute, h1, h2, h3, h4, hsel, bakeMain,
      restore_apply_save, engine_device_roundtrip]

/-- Witness for C4: the concrete failing bake restores the EEVEE/CPU scene,
drops the created image and the bake node, and cancels with the failure
report. -/
theorem bake_failure_cleanup_witness :
    (bakeExecute failingBakeCtx).status = OpStatus.CANCELLED ∧
    (bakeExecute failingBakeCtx).scene = failingBakeCtx.scene ∧
    (bakeExecute failingBakeCtx).images = failingBakeCtx.images ∧
    (bakeExecute failingBakeCtx).material =
      some { plainMat with nodes := deselectAll plainMat.nodes, active := none } ∧
    (bakeExecute failingBakeCtx).bakedImage = none ∧
    Report.mk ReportLevel.ERROR "Baking failed" ∈
      (bakeExecute failingBakeCtx).reports :=
  bake_failure_cleanup failingBakeCtx ⟨some plainMat⟩ plainMat rfl rfl rfl rfl
    (by decide)

/-! ## Claim C5: the add-curve operator -/

/-- C5: the add-curve operator links the node group only when it is not
already loaded (when loaded, the file state is irrelevant and nothing is
re-linked); it cancels with a single error string when the file or the node
group is missing (or the load raises) without running the curve
sub-operators; on success it adds the NURBS path, sets the spline type to
POLY, equips every selected curve object lacking the "J.CURVES" modifier
with it, leaves every other selected object untouched, and finishes. -/
theorem add_curve_spec (ctx : AddCurveCtx) :
    (("J.CURVES" ∈ ctx.nodeGroups ∨
      (ctx.fileExists = true ∧ ctx.linkRaises = false ∧
        "J.CURVES" ∈ ctx.fileNodeGroups)) →
      (addCurveExecute ctx).status = OpStatus.FINISHED ∧
      (addCurveExecute ctx).nodeGroups =
        (if "J.CURVES" ∈ ctx.nodeGroups then ctx.nodeGroups
         else ctx.nodeGroups ++ ["J.CURVES"]) ∧
      (addCurveExecute ctx).opsTrace =
        ["curve.primitive_nurbs_path_add", "curve.spline_type_set POLY"] ∧
      (addCurveExecute ctx).objects =
        some (ctx.selectedAfterAdd.map applyJCurvesModifier)) ∧
    (("J.CURVES" ∉ ctx.nodeGroups ∧
      (ctx.fileExists = false ∨ ctx.linkRaises = true ∨
        "J.CURVES" ∉ ctx.fileNodeGroups)) →
      (addCurveExecute ctx).status = OpStatus.CANCELLED ∧
      (∃ m, (addCurveExecute ctx).reports = [⟨ReportLevel.ERROR, m⟩]) ∧
      (addCurveExecute ctx).nodeGroups = ctx.nodeGroups ∧
      (addCurveExecute ctx).opsTrace = [] ∧
      (addCurveExecute ctx).objects = none) ∧
    (∀ o : Obj, o.objType = "CURVE" → hasModifier o "J.CURVES" = false →
      applyJCurvesModifier o =
        { o with modifiers := o.modifiers ++ [jcurvesModifier] } ∧
      hasModifier (applyJCurvesModifier o) "J.CURVES" = true) ∧
    (∀ o : Obj, (o.objType ≠ "CURVE" ∨ hasModifier o "J.CURVES" = true) →
      applyJCurvesModifier o = o) := by
  refine ⟨?_, ?_, ?_, ?_⟩
  · intro h
    by_cases hmem : "J.CURVES" ∈ ctx.nodeGroups
    · simp [addCurveExecute, hmem, addCurveProceed]
    · rcases h with h | ⟨hf, hl, hfg⟩
      · exact absurd h hmem
      · simp [addCurveExecute, hmem, hf, hl, hfg, addCurveProceed]
  · rintro ⟨hmem, hcases⟩
    by_cases hf : ctx.fileExists = true
    · by_cases hl : ctx.linkRaises = true
      · exact ⟨by simp [addCurveExecute, hmem, hf, hl, addCurveCancel],
          ⟨"Failed to link node group",
            by simp [addCurveExecute, hmem, hf, hl, addCurveCancel]⟩,
          by simp [addCurveExecute, hmem, hf, hl, addCurveCancel],
          by simp [addCurveExecute, hmem, hf, hl, addCurveCancel],
          by simp [addCurveExecute, hmem, hf, hl, addCurveCancel]⟩
      · have hfg : "J.CURVES" ∉ ctx.fileNodeGroups := by
          rcases hcases with h | h | h
          · simp [h] at hf
          · exact absurd h hl
          · exact h
        exact ⟨by simp [addCurveExecute, hmem, hf, hl, hfg, addCurveCancel],
          ⟨"Node group J.CURVES not found in .blend file.",
            by simp [addCurveExecute, hmem, hf, hl, hfg, addCurveCancel]⟩,
          by simp [addCurveExecute, hmem, hf, hl, hfg, addCurveCancel],
          by simp [addCurveExecute, hmem, hf, hl, hfg, addCurveCancel],
          by simp [addCurveExecute, hmem, hf, hl, hfg, addCurveCancel]⟩
    · exact ⟨by simp [addCurveExecute, hmem, hf, addCurveCancel],
        ⟨"Blend file not found",
          by simp [addCurveExecute, hmem, hf, addCurveCancel]⟩,
        by simp [addCurveExecute, hmem, hf, addCurveCancel],
        by simp [addCurveExecute, hmem, hf, addCurveCancel],
        by simp [addCurveExecute, hmem, hf, addCurveCancel]⟩
  · intro o h1 h2
    have happ : applyJCurvesModifier o =
        { o with modifiers := o.modifiers ++ [jcurvesModifier] } := by
      simp [applyJCurvesModifier, h1, h2]
    refine ⟨happ, ?_⟩
    rw [happ]
    simp [hasModifier, jcurvesModifier]
  · intro o h
    rcases h with h | h
    · simp [applyJCurvesModifier, h]
    · simp [applyJCurvesModifier, h]

/-- Witness for C5 on a concrete context: the link succeeds and the
selected curve gets the modifier. -/
theorem add_curve_spec_witness :
    (addCurveExecute addCurveOkCtx).status = OpStatus.FINISHED ∧
    (addCurveExecute addCurveOkCtx).nodeGroups =
      (if "J.CURVES" ∈ addCurveOkCtx.nodeGroups then addCurveOkCtx.nodeGroups
       else addCurveOkCtx.nodeGroups ++ ["J.CURVES"]) ∧
    (addCurveExecute addCurveOkCtx).opsTrace =
      ["curve.primitive_nurbs_path_add", "curve.spline_type_set POLY"] ∧
    (addCurveExecute addCurveOkCtx).objects =
      some (addCurveOkCtx.selectedAfterAdd.map applyJCurvesModifier) :=
  (add_curve_spec addCurveOkCtx).1 (Or.inr ⟨rfl, rfl, by decide⟩)

/-- Witness for the C8 amended theorem at concrete contexts for all four
cases. -/
theorem convert_guard_amended_witness :
    ((convertExecute noActiveCtx).status = OpStatus.CANCELLED ∧
      (convertExecute noActiveCtx).reports =
        [⟨ReportLevel.ERROR, "No active object selected."⟩] ∧
      (convertExecute noActiveCtx).opsTrace = [] ∧
      (convertExecute noActiveCtx).finalObject = noActiveCtx.activeObject ∧
      (convertExecute noActiveCtx).materials = noActiveCtx.materials ∧
      (convertExecute noActiveCtx).nodeGroups = noActiveCtx.nodeGroups) ∧
    ((convertExecute meshActiveCtx).status = OpStatus.CANCELLED ∧
      (convertExecute meshActiveCtx).reports =
        [⟨ReportLevel.ERROR, "Active object is not a curve."⟩] ∧
      (convertExecute meshActiveCtx).opsTrace = [] ∧
      (convertExecute meshActiveCtx).finalObject = meshActiveCtx.activeObject ∧
      (convertExecute meshActiveCtx).materials = meshActiveCtx.materials ∧
      (convertExecute meshActiveCtx).nodeGroups = meshActiveCtx.nodeGroups) ∧
    ((convertExecute plainConvertCtx).status = OpStatus.FINISHED ∧
      ∃ pre, (convertExecute plainConvertCtx).reports =
        pre ++ [⟨ReportLevel.INFO,
          "Converted to mesh and materials made local."⟩]) :=
  ⟨convert_guard_amended.1 noActiveCtx rfl,
   convert_guard_amended.2.1 meshActiveCtx ⟨"MESH", [], []⟩ rfl (by decide),
   convert_guard_amended.2.2.2 plainConvertCtx ⟨"CURVE", [], []⟩ rfl rfl rfl⟩

/-! ## Claim C6: choice of the bake target image -/

/-- C6: with bake-to-selected-image on, the target is the image of the
first Image Editor area that shows one, else the image of the active
texture node, else the run cancels with an error; with it off, a fresh
square image of the chosen resolution is created, named
name_Baked_NxN, with alpha on and opaque black generated color. -/
theorem bake_image_selection_spec (ctx : BakeCtx) (obj : BakeObj)
    (mat : ShaderMat) (h1 : ctx.activeObject = some obj)
    (h2 : obj.active_material = some mat) (h3 : mat.use_nodes = true)
    (h4 : ctx.bakeRaises = false) :
    (ctx.props.bake_to_selected_image = true →
      (∀ img, firstEditorImage ctx.areas = some img →
        (bakeExecute ctx).bakedImage = some img) ∧
      (firstEditorImage ctx.areas = none →
        ∀ img, activeNodeImage mat = some img →
          (bakeExecute ctx).bakedImage = some img) ∧
      (firstEditorImage ctx.areas = none → activeNodeImage mat = none →
        (bakeExecute ctx).status = OpStatus.CANCELLED ∧
        (bakeExecute ctx).reports =
          [⟨ReportLevel.ERROR,
            "No image selected in Image Editor or active node."⟩])) ∧
    (ctx.props.bake_to_selected_image = false →
      (bakeExecute ctx).status = OpStatus.FINISHED ∧
      (bakeExecute ctx).bakedImage =
        some (newBakedImage mat.name (ctx.props.resolution.toNat?.getD 0)) ∧
      (bakeExecute ctx).images =
        ctx.images ++
          [newBakedImage mat.name (ctx.props.resolution.toNat?.getD 0)]) ∧
    (∀ areas : List Area, firstEditorImage areas =
      ((areas.filter fun a =>
          a.areaType == "IMAGE_EDITOR" && a.spaceImage.isSome).head?).bind
        (fun a => a.spaceImage)) ∧
    (∀ n : String, ∀ r : Nat,
      (newBakedImage n r).name =
        n ++ "_Baked_" ++ toString r ++ "x" ++ toString r ∧
      (newBakedImage n r).width = r ∧ (newBakedImage n r).height = r ∧
      (newBakedImage n r).alpha = true ∧
      (newBakedImage n r).generated_color = (0, 0, 0, 1)) := by
  refine ⟨?_, ?_, firstEditorImage_head_filter, ?_⟩
  · intro hsel
    refine ⟨?_, ?_, ?_⟩
    · intro img himg
      have hsb : selectedBakeImage ctx.areas mat = some img := by
        simp [selectedBakeImage, himg]
      simp [bakeExecute, h1, h2, h3, h4, hsel, hsb, bakeMain]
    · intro hnone img himg
      have hsb : selectedBakeImage ctx.areas mat = some img := by
        simp [selectedBakeImage, hnone, himg]
      simp [bakeExecute, h1, h2, h3, h4, hsel, hsb, bakeMain]
    · intro hnone hnone2
      have hsb : selectedBakeImage ctx.areas mat = none := by
        simp [selectedBakeImage, hnone, hnone2]
      simp [bakeExecute, h1, h2, h3, hsel, hsb, bakeEarlyCancel]
  · intro hsel
    simp [bakeExecute, h1, h2, h3, h4, hsel, bakeMain]
  · intro n r
    exact ⟨rfl, rfl, rfl, rfl, rfl⟩

/-- Witness for C6: the concrete fresh bake creates and uses the
2048x2048 image named after the material. -/
theorem bake_image_selection_spec_witness :
    (bakeExecute freshBakeCtx).status = OpStatus.FINISHED ∧
    (bakeExecute freshBakeCtx).bakedImage =
      some (newBakedImage plainMat.name
        (freshBakeCtx.props.resolution.toNat?.getD 0)) ∧
    (bakeExecute freshBakeCtx).images =
      freshBakeCtx.images ++
        [newBakedImage plainMat.name
          (freshBakeCtx.props.resolution.toNat?.getD 0)] :=
  (bake_image_selection_spec freshBakeCtx ⟨some plainMat⟩ plainMat rfl rfl rfl
    rfl).2.1 rfl

/-! ## Claim C9: the Cycles device is forced to GPU for the bake -/

/-- C9: on every run that reaches the bake call, the render settings in
force at that call have device GPU, whatever the initial device was, and
the device (and engine) the run leaves behind are the initial ones. -/
theorem bake_device_forced_gpu (ctx : BakeCtx) (s : RenderSettings)
    (h : (bakeExecute ctx).sceneAtBake = some s) :
    s.device = "GPU" ∧
    (bakeExecute ctx).scene.device = ctx.scene.device ∧
    (bakeExecute ctx).scene.engine = ctx.scene.engine := by
  obtain ⟨props, ao, areas, scene, images, br⟩ := ctx
  cases ao with
  | none => simp [bakeExecute, bakeEarlyCancel] at h
  | some obj =>
    obtain ⟨am⟩ := obj
    cases am with
    | none => simp [bakeExecute, bakeEarlyCancel] at h
    | some mat =>
      by_cases hu : mat.use_nodes
      · by_cases hsel : props.bake_to_selected_image
        · cases himg : selectedBakeImage areas mat with
          | none => simp [bakeExecute, hu, hsel, himg, bakeEarlyCancel] at h
          | some image =>
            simp only [bakeExecute, hu, hsel, himg] at h ⊢
            cases br <;> (simp_all [bakeMain, applyBakeSettings]; simp [← h])
        · simp only [bakeExecute, hu, hsel] at h ⊢
          cases br <;> (simp_all [bakeMain, applyBakeSettings]; simp [← h])
      · simp [bakeExecute, hu, bakeEarlyCancel] at h

/-- Witness for C9: the settings at the concrete fresh bake call. -/
theorem bake_device_forced_gpu_witness :
    gpuSceneAtBake.device = "GPU" ∧
    (bakeExecute freshBakeCtx).scene.device = freshBakeCtx.scene.device ∧
    (bakeExecute freshBakeCtx).scene.engine = freshBakeCtx.scene.engine :=
  bake_device_forced_gpu freshBakeCtx gpuSceneAtBake (by decide)

/-! ## Claim C10: when the color modifier is added -/

/-- C10: on a successful convert, the final mesh carries a changed modifier
stack only when the loop copied at least one library material (made_local),
the use-existing-colors flag is off and the color modifier was absent, and
then the change is exactly the appended color modifier; in every other case
the stack is unchanged; and a run in which every linked material is reused
from an existing local one never sets made_local. -/
theorem color_modifier_only_if (ctx : ConvertCtx) (obj : Obj)
    (h1 : ctx.activeObject = some obj) (h2 : obj.objType = "CURVE")
    (h3 : ctx.convertRaises = false) :
    (∀ m : Obj, (convertExecute ctx).finalObject = some m →
      m.modifiers ≠ ctx.meshAfterConvert.modifiers →
        (processSlots ctx.meshAfterConvert.material_slots
          ctx.materials).madeLocal = true ∧
        ctx.use_existing_colors = false ∧
        hasModifier ctx.meshAfterConvert "J.CURVEScolor" = false ∧
        m.modifiers =
          ctx.meshAfterConvert.modifiers ++ [jcurvesColorModifier]) ∧
    (((processSlots ctx.meshAfterConvert.material_slots
        ctx.materials).madeLocal = false ∨
      ctx.use_existing_colors = true ∨
      hasModifier ctx.meshAfterConvert "J.CURVEScolor" = true) →
      ∀ m : Obj, (convertExecute ctx).finalObject = some m →
        m.modifiers = ctx.meshAfterConvert.modifiers) ∧
    ((∀ mat : Material, some mat ∈ ctx.meshAfterConvert.material_slots →
        mat.library ≠ none →
        ∃ ex, matGet ctx.materials mat.name = some ex ∧ ex.library = none) →
      (processSlots ctx.meshAfterConvert.material_slots
        ctx.materials).madeLocal = false) := by
  have hfo := convertExecute_finalObject ctx obj h1 h2 h3
  refine ⟨?_, ?_, processSlots_reuse _ _⟩
  · intro m hm hne
    rw [hfo] at hm
    have hmeq := Option.some_inj.mp hm
    subst hmeq
    by_cases hcond : (processSlots ctx.meshAfterConvert.material_slots
        ctx.materials).madeLocal && !ctx.use_existing_colors
    · rw [if_pos hcond] at hne ⊢
      rcases colorPhase_modifiers ctx
        { ctx.meshAfterConvert with
          material_slots := (processSlots ctx.meshAfterConvert.material_slots
            ctx.materials).slots } with hsame | ⟨hmodf, hadd⟩
      · exact absurd (hsame.trans rfl) hne
      · have hml := (Bool.and_eq_true _ _).mp hcond
        rw [hasModifier_set_slots] at hmodf
        refine ⟨hml.1, ?_, hmodf, hadd.trans rfl⟩
        have h2' := hml.2
        simp only [Bool.not_eq_true'] at h2'
        exact h2'
    · rw [if_neg hcond] at hne
      exact absurd rfl hne
  · intro hcond m hm
    rw [hfo] at hm
    have hmeq := Option.some_inj.mp hm
    subst hmeq
    by_cases hc : (processSlots ctx.meshAfterConvert.material_slots
        ctx.materials).madeLocal && !ctx.use_existing_colors
    · have hml := (Bool.and_eq_true _ _).mp hc
      have hmod : hasModifier ctx.meshAfterConvert "J.CURVEScolor" = true := by
        rcases hcond with h | h | h
        · rw [h] at hml
          exact absurd hml.1 (by decide)
        · rw [h] at hml
          exact absurd hml.2 (by decide)
        · exact h
      rw [if_pos hc, colorPhase_present ctx _
        (by rw [hasModifier_set_slots]; exact hmod)]
    · rw [if_neg hc]

/-- Witness for C10: a convert with no material slots never sets made_local
(so no color modifier is added). -/
theorem color_modifier_only_if_witness :
    (processSlots plainConvertCtx.meshAfterConvert.material_slots
      plainConvertCtx.materials).madeLocal = false :=
  (color_modifier_only_if plainConvertCtx ⟨"CURVE", [], []⟩ rfl rfl rfl).2.2
    (fun _ hm _ => absurd hm (List.not_mem_nil _))

end JCurves
